import Mathlib

/-
Verification of the election-system backend's token-authentication and
vote-integrity core.  The definitions below are a shallow embedding of
the Python sources under backend/app: pure string manipulation is
embedded character-wise over `List Char`, machine words are `Nat` with
explicit reduction modulo 2^32, database tables are lists of row
structures, and each HTTP endpoint or service method becomes a pure
function from an explicit state to a result (errors as `Except`).
-/

namespace ElectionSys

/- §1 Python string primitives (str.replace with single-character
   arguments, str.strip, str.upper, str.isalnum), embedded char-wise. -/

/-- Python `s.replace(src, dst)` for single-character `src`/`dst`. -/
def pyReplaceChar (src dst : Char) (s : String) : String :=
  ⟨s.data.map fun c => if c = src then dst else c⟩

/-- Python `s.replace(src, "")` for a single-character `src`. -/
def pyRemoveChar (src : Char) (s : String) : String :=
  ⟨s.data.filter fun c => !(c = src)⟩

/-- Python `s.upper()` (ASCII range, which is all the tokens use). -/
def pyUpper (s : String) : String :=
  ⟨s.data.map Char.toUpper⟩

/-- Python whitespace as recognised by `str.strip()`. -/
def isPySpace (c : Char) : Bool :=
  c = ' ' || c = '\t' || c = '\n' || c = '\r' || c = '\x0b' || c = '\x0c'

/-- Python `s.strip()`: drop leading and trailing whitespace. -/
def pyStrip (s : String) : String :=
  ⟨((s.data.dropWhile isPySpace).reverse.dropWhile isPySpace).reverse⟩

/-- Python `s.isalnum()`: nonempty and all characters alphanumeric. -/
def pyIsAlnum (s : String) : Bool :=
  !s.data.isEmpty && s.data.all Char.isAlphanum

/- §2 SHA-256 (`hashlib.sha256(...).hexdigest()`), words as `Nat`
   reduced modulo 2^32. -/

/-- Reduce to a 32-bit word. -/
def w32 (x : Nat) : Nat := x % 4294967296

/-- 32-bit rotate right. -/
def rotr32 (n x : Nat) : Nat := w32 ((x >>> n) ||| (x <<< (32 - n)))

def bigSigma0 (x : Nat) : Nat := rotr32 2 x ^^^ rotr32 13 x ^^^ rotr32 22 x

def bigSigma1 (x : Nat) : Nat := rotr32 6 x ^^^ rotr32 11 x ^^^ rotr32 25 x

def smallSigma0 (x : Nat) : Nat := rotr32 7 x ^^^ rotr32 18 x ^^^ (x >>> 3)

def smallSigma1 (x : Nat) : Nat := rotr32 17 x ^^^ rotr32 19 x ^^^ (x >>> 10)

def sha256K : List Nat :=
  [1116352408, 1899447441, 3049323471, 3921009573, 961987163, 1508970993,
   2453635748, 2870763221, 3624381080, 310598401, 607225278, 1426881987,
   1925078388, 2162078206, 2614888103, 3248222580, 3835390401, 4022224774,
   264347078, 604807628, 770255983, 1249150122, 1555081692, 1996064986,
   2554220882, 2821834349, 2952996808, 3210313671, 3336571891, 3584528711,
   113926993, 338241895, 666307205, 773529912, 1294757372, 1396182291,
   1695183700, 1986661051, 2177026350, 2456956037, 2730485921, 2820302411,
   3259730800, 3345764771, 3516065817, 3600352804, 4094571909, 275423344,
   430227734, 506948616, 659060556, 883997877, 958139571, 1322822218,
   1537002063, 1747873779, 1955562222, 2024104815, 2227730452, 2361852424,
   2428436474, 2756734187, 3204031479, 3329325298]

def sha256H0 : List Nat :=
  [1779033703, 3144134277, 1013904242, 2773480762,
   1359893119, 2600822924, 528734635, 1541459225]

/-- UTF-8 encoding of one code point (Python `str.encode()`). -/
def utf8Encode (c : Char) : List Nat :=
  let n := c.toNat
  if n < 0x80 then [n]
  else if n < 0x800 then [0xC0 ||| (n >>> 6), 0x80 ||| (n &&& 0x3F)]
  else if n < 0x10000 then
    [0xE0 ||| (n >>> 12), 0x80 ||| ((n >>> 6) &&& 0x3F), 0x80 ||| (n &&& 0x3F)]
  else
    [0xF0 ||| (n >>> 18), 0x80 ||| ((n >>> 12) &&& 0x3F),
     0x80 ||| ((n >>> 6) &&& 0x3F), 0x80 ||| (n &&& 0x3F)]

/-- Bytes of the UTF-8 encoding of a string. -/
def strBytes (s : String) : List Nat := (s.data.map utf8Encode).flatten

/-- Big-endian byte list of width `n` for value `v`. -/
def beBytes (n v : Nat) : List Nat :=
  (List.range n).map fun i => (v >>> (8 * (n - 1 - i))) &&& 0xFF

/-- SHA-256 message padding to a multiple of 64 bytes. -/
def sha256pad (msg : List Nat) : List Nat :=
  let L := msg.length
  let k := (120 - ((L + 1) % 64)) % 64
  msg ++ [0x80] ++ List.replicate k 0 ++ beBytes 8 (8 * L)

/-- Group bytes into big-endian 32-bit words. -/
def toWords : List Nat → List Nat
  | b0 :: b1 :: b2 :: b3 :: rest =>
      ((b0 <<< 24) ||| (b1 <<< 16) ||| (b2 <<< 8) ||| b3) :: toWords rest
  | _ => []

/-- Fuel-driven worker for `groupN` (structural recursion on the fuel,
which is always at least the list length at the call sites). -/
def groupNFuel (n : Nat) : Nat → List α → List (List α)
  | _, [] => []
  | 0, _ :: _ => []
  | fuel + 1, a :: rest =>
      (a :: rest).take n :: groupNFuel n fuel ((a :: rest).drop n)

/-- Split a list into groups of `n` (used with `n > 0`). -/
def groupN (n : Nat) (l : List α) : List (List α) := groupNFuel n l.length l

/-- The 64-entry message schedule for one block. -/
def msgSchedule (block : List Nat) : List Nat :=
  (List.range 64).foldl
    (fun ws t =>
      if t < 16 then ws ++ [block.getD t 0]
      else
        ws ++ [w32 (smallSigma1 (ws.getD (t - 2) 0) + ws.getD (t - 7) 0 +
                    smallSigma0 (ws.getD (t - 15) 0) + ws.getD (t - 16) 0)])
    []

/-- One SHA-256 compression round. -/
def sha256round (st : List Nat) (kw : Nat × Nat) : List Nat :=
  match st with
  | [a, b, c, d, e, f, g, h] =>
    let ch := (e &&& f) ^^^ ((0xFFFFFFFF ^^^ e) &&& g)
    let maj := (a &&& b) ^^^ (a &&& c) ^^^ (b &&& c)
    let t1 := w32 (h + bigSigma1 e + ch + kw.1 + kw.2)
    let t2 := w32 (bigSigma0 a + maj)
    [w32 (t1 + t2), a, b, c, w32 (d + t1), e, f, g]
  | other => other

/-- Process one 16-word block. -/
def processBlock (H : List Nat) (block : List Nat) : List Nat :=
  let W := msgSchedule block
  let st := (sha256K.zip W).foldl sha256round H
  (H.zip st).map fun p => w32 (p.1 + p.2)

/-- SHA-256 of a byte list, as eight 32-bit words. -/
def sha256words (bytes : List Nat) : List Nat :=
  (groupN 16 (toWords (sha256pad bytes))).foldl processBlock sha256H0

def hexDigit (n : Nat) : Char := "0123456789abcdef".data.getD n '0'

def word2hex (v : Nat) : List Char :=
  (List.range 8).map fun i => hexDigit ((v >>> (4 * (7 - i))) &&& 0xF)

/-- `hashlib.sha256(s.encode()).hexdigest()`. -/
def sha256hex (s : String) : String :=
  ⟨((sha256words (strBytes s)).map word2hex).flatten⟩

/- §3 Token codec (app/utils/security.py `FriendlyTokenGenerator`,
   `TokenManager`, and app/services/token_generation_service.py
   `BulkTokenGenerator`, `StudentIDConverter`). -/

/-- The restricted alphabet shared by both generators (no 0/O/1/I/l). -/
def safeChars : String := "ABCDEFGHJKLMNPQRSTUVWXYZ23456789"

/-- `FriendlyTokenGenerator.normalize_token`:
`token.replace("-", "").replace(" ", "").upper()`. -/
def normalizeToken (token : String) : String :=
  pyUpper (pyRemoveChar ' ' (pyRemoveChar '-' token))

/-- `TokenManager.hash_voting_token`: SHA-256 hex digest of the
normalized token. -/
def hashVotingToken (token : String) : String :=
  sha256hex (normalizeToken token)

/-- `BulkTokenGenerator._hash_token`: same cleaning then SHA-256. -/
def bulkHashToken (token : String) : String :=
  sha256hex (pyUpper (pyRemoveChar ' ' (pyRemoveChar '-' token)))

/-- `FriendlyTokenGenerator.validate_token_format`. -/
def validateTokenFormat (token : String) (expectedLength : Nat) : Bool :=
  if token.data.isEmpty then false
  else
    let clean := normalizeToken token
    if clean.length ≠ expectedLength then false
    else pyIsAlnum clean

/-- `BulkTokenGenerator._generate_token`: four draws from `safeChars` via
`secrets.choice`; the random draws are an explicit parameter here. -/
def generateToken4 (draws : List Char) : String := ⟨draws⟩

/-- The possible draw sequences of `_generate_token`: length 4, every
character from the restricted alphabet. -/
def validDraws4 (draws : List Char) : Prop :=
  draws.length = 4 ∧ ∀ c ∈ draws, c ∈ safeChars.data

/-- `StudentIDConverter.to_storage` (token_generation_service.py):
`student_id.replace("/", "-")`. -/
def toStorage (studentId : String) : String := pyReplaceChar '/' '-' studentId

/-- `StudentIDConverter.to_display` (token_generation_service.py):
`student_id.replace("-", "/")`. -/
def toDisplay (studentId : String) : String := pyReplaceChar '-' '/' studentId

/- §4 Data model (app/models/electorates.py), one structure per table,
   ids as `Nat` standing for UUIDs and timestamps as `Int` seconds. -/

structure ElectorateRow where
  id : Nat
  student_id : String
  has_voted : Bool
  voted_at : Option Int
  is_deleted : Bool
deriving DecidableEq, Repr

structure TokenRow where
  id : Nat
  electorate_id : Nat
  token_hash : String
  is_active : Bool
  usage_count : Nat
  expires_at : Int
  revoked : Bool
deriving DecidableEq, Repr

structure SessionRow where
  id : Nat
  electorate_id : Nat
  is_valid : Bool
  expires_at : Int
deriving DecidableEq, Repr

structure VoteRow where
  id : Nat
  electorate_id : Nat
  portfolio_id : Nat
  candidate_id : Nat
  voting_session_id : Option Nat
  is_valid : Bool
deriving DecidableEq, Repr

structure CandidateRow where
  id : Nat
  portfolio_id : Nat
  is_active : Bool
deriving DecidableEq, Repr

structure Db where
  electorates : List ElectorateRow
  tokens : List TokenRow
  sessions : List SessionRow
  votes : List VoteRow
  candidates : List CandidateRow
  nextVoteId : Nat
deriving DecidableEq, Repr

structure HttpErr where
  status : Nat
  detail : String
deriving DecidableEq, Repr

/- §5 Token verification endpoint
   (app/api/auth_router.py `verify_voting_id`). -/

structure VerifySuccess where
  electorate_id : Nat
  session_expires_at : Int
  credential_type : String
deriving DecidableEq, Repr

/-- Modelled from the spec: `get_voting_token_by_hash` from
app.crud.crud_voting_tokens is absent from src; the spec says
"hash and look up a VotingToken by digest". -/
def getVotingTokenByHash (ts : List TokenRow) (h : String) : Option TokenRow :=
  ts.find? fun t => t.token_hash == h

/-- `verify_voting_id`: strip and normalize the presented token, enforce
the 8-character alphanumeric format, look the digest up, then check
expiry, revocation and the owning electorate, in that order.  On success
a 30-minute voting session and a `voting_session`-typed credential are
produced (the usage-counter update is a side effect not observed by any
claim and is elided). -/
def verifyVotingId (db : Db) (now : Int) (input : String) :
    Except HttpErr VerifySuccess :=
  let tokenInput := pyStrip input
  if tokenInput = "" then .error ⟨400, "Token cannot be empty"⟩
  else
    let cleanToken := normalizeToken tokenInput
    if cleanToken.length ≠ 8 then
      .error ⟨400, "Invalid token format. Expected 8 characters, got " ++
                    toString cleanToken.length⟩
    else if !pyIsAlnum cleanToken then
      .error ⟨400, "Token must be alphanumeric"⟩
    else
      match getVotingTokenByHash db.tokens (sha256hex cleanToken) with
      | none => .error ⟨401, "Invalid token"⟩
      | some vt =>
        if now > vt.expires_at then .error ⟨401, "Token expired"⟩
        else if vt.revoked then .error ⟨401, "Token revoked"⟩
        else
          match db.electorates.find? (fun el => el.id == vt.electorate_id) with
          | none => .error ⟨404, "Voter not found"⟩
          | some el =>
            if el.is_deleted then .error ⟨404, "Voter not found"⟩
            else .ok ⟨el.id, now + 1800, "voting_session"⟩

/- §6 Authentication middleware (app/middleware/auth_middleware.py).
   The JWT signature/expiry verification performed by the jose library
   is outside the embedded code; the functions below take the decoded
   payload claims directly, which is all the authorizers inspect. -/

structure JwtPayload where
  sub : Option String
  role : Option String
  type : Option String
  session_id : Option Nat
deriving DecidableEq, Repr

structure UserConfig where
  username : String
  password_hash : String
  role : String
  permissions : List String
deriving DecidableEq, Repr

structure StaffUser where
  username : String
  role : String
  permissions : List String
  is_admin : Bool
deriving DecidableEq, Repr

/-- `token_type not in ["admin_access", "access", None]` (negated). -/
def staffTypeOk : Option String → Bool
  | none => true
  | some t => t == "admin_access" || t == "access"

/-- Python truthiness of an optional string (`if not username`). -/
def pyTruthy : Option String → Bool
  | none => false
  | some s => !s.isEmpty

/-- `role not in ["admin", "ec_official", "polling_agent"]` (negated). -/
def roleAllowed : Option String → Bool
  | none => false
  | some r => r == "admin" || r == "ec_official" || r == "polling_agent"

/-- `get_current_user`: the staff/admin authorizer. -/
def getCurrentUser (users : List UserConfig) (p : JwtPayload) :
    Except HttpErr StaffUser :=
  if !staffTypeOk p.type then .error ⟨401, "Invalid token type"⟩
  else if !pyTruthy p.sub then .error ⟨401, "Invalid token"⟩
  else if !roleAllowed p.role then .error ⟨403, "Invalid user role"⟩
  else
    match users.find? (fun u => u.username == p.sub.getD "") with
    | none => .error ⟨401, "User not found"⟩
    | some uc =>
      if uc.role ≠ p.role.getD "" then .error ⟨403, "Role mismatch"⟩
      else .ok ⟨uc.username, uc.role, uc.permissions, uc.role == "admin"⟩

/-- `_validate_voter_session`, viewed as the validity test (its
last-activity bookkeeping is a side effect no claim observes). -/
def validateVoterSession (sessions : List SessionRow) (now : Int)
    (sid eid : Nat) : Bool :=
  match sessions.find? (fun s => s.id == sid) with
  | none => false
  | some s =>
    if !s.is_valid || s.expires_at < now then false
    else if s.electorate_id ≠ eid then false
    else true

/-- `get_current_voter`: the voter authorizer.  `UUID(voter_id)` parsing
is modelled by `String.toNat?` over the `Nat`-keyed id space. -/
def getCurrentVoter (db : Db) (now : Int) (p : JwtPayload) :
    Except HttpErr ElectorateRow :=
  if p.type ≠ some "voting_session" then .error ⟨401, "Invalid token type"⟩
  else if !pyTruthy p.sub then .error ⟨401, "Invalid token"⟩
  else
    match (p.sub.getD "").toNat? with
    | none => .error ⟨401, "Invalid authentication credentials"⟩
    | some vid =>
      match db.electorates.find? (fun el => el.id == vid) with
      | none => .error ⟨404, "Voter not found"⟩
      | some voter =>
        if voter.is_deleted then .error ⟨404, "Voter not found"⟩
        else
          match p.session_id with
          | none => .ok voter
          | some sid =>
            if validateVoterSession db.sessions now sid voter.id then .ok voter
            else .error ⟨401, "Session expired. Please login again."⟩

/- §7 Vote casting (app/api/voting_router.py `cast_vote` plus the
   request-validation of app/schemas/electorates.py `VotingCreation`,
   which FastAPI runs before the handler body). -/

structure VoteReq where
  portfolio_id : Nat
  candidate_id : Nat
deriving DecidableEq, Repr

structure FailedVote where
  portfolio_id : Nat
  candidate_id : Nat
  error : String
deriving DecidableEq, Repr

structure VoteResponse where
  success : Bool
  message : String
  votes_cast : Nat
  failed_votes : List FailedVote
deriving DecidableEq, Repr

/-- Modelled from the spec: `check_electorate_voted_for_portfolio` from
app.crud.crud_votes is absent from src; the spec says "Reject if the
electorate already has a valid vote for this portfolio". -/
def checkElectorateVotedForPortfolio (votes : List VoteRow) (eid pid : Nat) :
    Bool :=
  votes.any fun v => v.electorate_id == eid && v.portfolio_id == pid && v.is_valid

/-- Modelled from the spec: `create_vote` from app.crud.crud_votes is
absent from src; the spec says "Otherwise insert a Vote row". -/
def createVote (db : Db) (eid : Nat) (v : VoteReq) (sid : Option Nat) : Db :=
  { db with
    votes := db.votes ++
      [⟨db.nextVoteId, eid, v.portfolio_id, v.candidate_id, sid, true⟩],
    nextVoteId := db.nextVoteId + 1 }

/-- One iteration of the `cast_vote` per-vote loop. -/
def processVoteEntry (eid : Nat) (sid : Option Nat)
    (acc : Db × Nat × List FailedVote) (v : VoteReq) :
    Db × Nat × List FailedVote :=
  let (db, ok, failed) := acc
  if checkElectorateVotedForPortfolio db.votes eid v.portfolio_id then
    (db, ok, failed ++
      [⟨v.portfolio_id, v.candidate_id, "Already voted for this portfolio"⟩])
  else
    match db.candidates.find? (fun c => c.id == v.candidate_id) with
    | none =>
      (db, ok, failed ++ [⟨v.portfolio_id, v.candidate_id, "Candidate not found"⟩])
    | some cand =>
      if cand.portfolio_id ≠ v.portfolio_id then
        (db, ok, failed ++
          [⟨v.portfolio_id, v.candidate_id,
            "Candidate does not belong to this portfolio"⟩])
      else if !cand.is_active then
        (db, ok, failed ++
          [⟨v.portfolio_id, v.candidate_id, "Candidate is not active"⟩])
      else (createVote db eid v sid, ok + 1, failed)

/-- `electorate.has_voted = True; electorate.voted_at = now`. -/
def markVoted (db : Db) (eid : Nat) (now : Int) : Db :=
  { db with
    electorates := db.electorates.map fun el =>
      if el.id == eid then { el with has_voted := true, voted_at := some now }
      else el }

/-- The `/voting/vote` endpoint: `VotingCreation` validation (nonempty,
no duplicate portfolio ids) followed by the `cast_vote` handler body.
Returns the post-state together with the HTTP outcome. -/
def castVoteEndpoint (db : Db) (e : ElectorateRow) (sid : Option Nat)
    (now : Int) (votes : List VoteReq) : Db × Except HttpErr VoteResponse :=
  if votes.isEmpty then (db, .error ⟨422, "At least one vote is required"⟩)
  else if ¬(votes.map (fun v => v.portfolio_id)).Nodup then
    (db, .error ⟨422, "Cannot vote for the same portfolio multiple times"⟩)
  else
    let r := votes.foldl (processVoteEntry e.id sid) (db, 0, [])
    let db1 := r.1
    let ok := r.2.1
    let failed := r.2.2
    let db2 := if 0 < ok then markVoted db1 e.id now else db1
    let msg :=
      if 0 < ok ∧ failed.isEmpty then
        "Successfully cast " ++ toString ok ++ " vote(s)"
      else if 0 < ok then
        "Cast " ++ toString ok ++ " vote(s), " ++
          toString failed.length ++ " failed"
      else "All votes failed"
    (db2, .ok ⟨decide (0 < ok), msg, ok, failed⟩)

/- §8 Declared storage constraints of the `votes` table (the `Vote`
   model in app/models/electorates.py): a primary key on `id` and
   foreign keys to students, portfolios and candidates — no other
   uniqueness constraint is declared. -/

def votesSchemaAdmits (vs : List VoteRow)
    (electorateIds portfolioIds candidateIds : List Nat) : Prop :=
  (vs.map (fun v => v.id)).Nodup ∧
  ∀ v ∈ vs, v.electorate_id ∈ electorateIds ∧ v.portfolio_id ∈ portfolioIds ∧
    v.candidate_id ∈ candidateIds

/-- Claim-side property, following the spec's words: the storage layer
by itself forbids two distinct valid votes sharing
(electorate_id, portfolio_id). -/
def storageEnforcesUniqueValidPair : Prop :=
  ∀ (vs : List VoteRow) (eIds pIds cIds : List Nat),
    votesSchemaAdmits vs eIds pIds cIds →
    ∀ v1 ∈ vs, ∀ v2 ∈ vs, v1.is_valid = true → v2.is_valid = true →
      v1.electorate_id = v2.electorate_id → v1.portfolio_id = v2.portfolio_id →
      v1 = v2

/- §9 Token issuance service (app/services/token_generation_service.py
   `BulkTokenGenerator`).  The `secrets.choice` randomness is an
   explicit `supply` parameter giving the plaintext for the n-th
   generated token, and fresh row ids come from a counter.  The
   per-electorate loop body constructs `VotingToken(...)` with keyword
   arguments (device_fingerprint, device_info, ip_address, user_agent)
   that the model class does not declare; `Base = declarative_base()`
   (app/core/database.py) leaves SQLAlchemy's default declarative
   constructor in place, which raises TypeError on the first unknown
   keyword argument, so the loop raises instead of persisting — the
   embedding returns `Except`, and on the error path the session from
   `get_db` is closed without commit, leaving the stored rows as they
   were. -/

structure IssuedInfo where
  electorate_id : Nat
  student_id : String
  token : String
deriving DecidableEq, Repr

structure IssueState where
  tokens : List TokenRow
  nextId : Nat
  issued : List IssuedInfo
deriving DecidableEq, Repr

/-- The per-row update of the old-token revocation loop. -/
def revokeOne (eid : Nat) (t : TokenRow) : TokenRow :=
  if t.electorate_id == eid && !t.revoked then { t with revoked := true } else t

/-- Revoke every currently-unrevoked token of electorate `eid`. -/
def revokeFor (eid : Nat) (ts : List TokenRow) : List TokenRow :=
  ts.map (revokeOne eid)

/-- The `VotingToken` row persisted for a fresh plaintext `tok`
(24-hour TTL, active, unrevoked). -/
def newTokenRow (rid eid : Nat) (tok : String) (now : Int) : TokenRow :=
  ⟨rid, eid, bulkHashToken tok, true, 0, now + 86400, false⟩

/-- The attribute names the `VotingToken` model class declares: its
mapped columns, the `electorate` relationship and the
`update_usage_count` property (models/electorates.py). -/
def votingTokenAttrs : List String :=
  ["id", "electorate_id", "token_hash", "is_active", "usage_count",
   "last_used_at", "expires_at", "created_at", "revoked", "revoked_at",
   "revoked_reason", "electorate", "update_usage_count"]

/-- The keyword arguments of the `VotingToken(...)` call in
`generate_tokens_for_electorates`, in source order. -/
def votingTokenCallKwargs : List String :=
  ["electorate_id", "token_hash", "device_fingerprint", "device_info",
   "ip_address", "user_agent", "expires_at", "is_active", "revoked"]

/-- SQLAlchemy's default declarative constructor: it raises
`TypeError("%r is an invalid keyword argument for %s")` at the first
keyword argument that is not an attribute of the class, before any
assignment is made. -/
def declarativeConstructorCheck (clsName : String)
    (attrs kwargs : List String) : Except String Unit :=
  match kwargs.find? (fun k => !attrs.contains k) with
  | some k =>
    .error ("'" ++ k ++ "' is an invalid keyword argument for " ++ clsName)
  | none => .ok ()

/-- Body of the per-electorate loop in `generate_tokens_for_electorates`:
skip if already voted; otherwise revoke the old tokens in the session,
draw a fresh plaintext and call the `VotingToken` constructor.  The call
passes attributes the model lacks, so the constructor check fails and
the loop raises before `db.add`; the success branch (what the code would
persist and report if the constructor accepted the row) is kept for
structure but is unreachable. -/
def processElectorate (now : Int) (supply : Nat → String)
    (st : IssueState) (e : ElectorateRow) : Except String IssueState :=
  if e.has_voted then .ok st
  else
    let revoked := revokeFor e.id st.tokens
    let tok := supply st.nextId
    match declarativeConstructorCheck "VotingToken" votingTokenAttrs
        votingTokenCallKwargs with
    | .error msg => .error msg
    | .ok _ =>
      .ok { tokens := revoked ++ [newTokenRow st.nextId e.id tok now],
            nextId := st.nextId + 1,
            issued := st.issued ++ [⟨e.id, toDisplay e.student_id, tok⟩] }

/-- The batch SELECT: electorates whose id is in the chunk and that are
not soft-deleted. -/
def chunkEligible (electorates : List ElectorateRow) (chunk : List Nat) :
    List ElectorateRow :=
  electorates.filter fun el => chunk.contains el.id && !el.is_deleted

/-- The per-electorate loop over one batch: the first raised TypeError
aborts the whole call. -/
def runElectorateLoop (now : Int) (supply : Nat → String) :
    IssueState → List ElectorateRow → Except String IssueState
  | st, [] => .ok st
  | st, e :: L =>
    match processElectorate now supply st e with
    | .error msg => .error msg
    | .ok st2 => runElectorateLoop now supply st2 L

def processChunk (electorates : List ElectorateRow) (now : Int)
    (supply : Nat → String) (st : IssueState) (chunk : List Nat) :
    Except String IssueState :=
  runElectorateLoop now supply st (chunkEligible electorates chunk)

/-- The outer loop over the 1000-id batches. -/
def runChunkLoop (electorates : List ElectorateRow) (now : Int)
    (supply : Nat → String) :
    IssueState → List (List Nat) → Except String IssueState
  | st, [] => .ok st
  | st, c :: CS =>
    match processChunk electorates now supply st c with
    | .error msg => .error msg
    | .ok st2 => runChunkLoop electorates now supply st2 CS

/-- `generate_tokens_for_electorates`: process the id list in chunks of
1000 against the electorate and token tables; `db.commit()` runs only
after both loops finish, so a raised TypeError reaches the caller with
nothing committed. -/
def generateTokensForElectorates (electorates : List ElectorateRow)
    (tokens0 : List TokenRow) (nextId0 : Nat) (ids : List Nat) (now : Int)
    (supply : Nat → String) : Except String IssueState :=
  runChunkLoop electorates now supply ⟨tokens0, nextId0, []⟩ (groupN 1000 ids)

/-- `generate_tokens_for_portfolio`: exclude electorates having a valid
vote for the portfolio, then delegate. -/
def generateTokensForPortfolio (electorates : List ElectorateRow)
    (tokens0 : List TokenRow) (votes : List VoteRow) (nextId0 : Nat)
    (pid : Nat) (now : Int) (supply : Nat → String) :
    Except String IssueState :=
  let votedIds := (votes.filter fun v => v.portfolio_id == pid && v.is_valid).map
    fun v => v.electorate_id
  let target :=
    if votedIds.isEmpty then electorates.filter fun el => !el.is_deleted
    else electorates.filter fun el =>
      !el.is_deleted && !(votedIds.contains el.id)
  generateTokensForElectorates electorates tokens0 nextId0
    (target.map fun el => el.id) now supply

/-- The voting_tokens rows durably stored once the call returns: the
committed state on success, the pre-call rows when the call raised (the
session from `get_db` closes without commit, discarding the pending
revocations). -/
def persistedTokensAfterIssue (tokens0 : List TokenRow)
    (r : Except String IssueState) : List TokenRow :=
  match r with
  | .ok st => st.tokens
  | .error _ => tokens0

/-- The issued plaintexts reported to the caller: none when the call
raised. -/
def issuedOf (r : Except String IssueState) : List IssuedInfo :=
  match r with
  | .ok st => st.issued
  | .error _ => []

/-- Whether an issuance report contains a fresh plaintext for `eid`. -/
def issuedContains (issued : List IssuedInfo) (eid : Nat) : Prop :=
  ∃ x ∈ issued, x.electorate_id = eid

instance (draws : List Char) : Decidable (validDraws4 draws) := by
  unfold validDraws4; infer_instance

instance (issued : List IssuedInfo) (eid : Nat) :
    Decidable (issuedContains issued eid) := by
  unfold issuedContains; infer_instance

instance (vs : List VoteRow) (a b c : List Nat) :
    Decidable (votesSchemaAdmits vs a b c) := by
  unfold votesSchemaAdmits; infer_instance

/- §10 Theorems. -/

/-- C1: the claim that at most one valid Vote per (electorate, portfolio)
is enforced at the storage layer is false on this code: the declared
constraints of the votes table (primary key and foreign keys only) admit
two distinct valid votes for the same (electorate_id, portfolio_id), so
uniqueness rests solely on application logic. -/
theorem C1_votes_schema_admits_duplicate_valid_pair :
    storageEnforcesUniqueValidPair = False := by
  refine eq_false ?_
  intro h
  have h2 := h [⟨1, 1, 1, 1, none, true⟩, ⟨2, 1, 1, 2, none, true⟩]
    [1] [1] [1, 2] (by decide)
    ⟨1, 1, 1, 1, none, true⟩ (by decide) ⟨2, 1, 1, 2, none, true⟩ (by decide)
    rfl rfl rfl rfl
  exact absurd h2 (by decide)

/-- C3: a `voting_session`-typed credential is rejected by the staff
authorizer, and an `admin_access`-typed credential is rejected by the
voter authorizer: neither credential class grants the other's
capabilities. -/
theorem C3_credential_types_not_interchangeable :
    ∀ (users : List UserConfig) (db : Db) (now : Int) (p : JwtPayload),
      (p.type = some "voting_session" →
        getCurrentUser users p = .error ⟨401, "Invalid token type"⟩) ∧
      (p.type = some "admin_access" →
        getCurrentVoter db now p = .error ⟨401, "Invalid token type"⟩) := by
  intro users db now p
  constructor
  · intro h
    unfold getCurrentUser
    rw [h]
    rfl
  · intro h
    unfold getCurrentVoter
    rw [h]
    rfl

/-- C3 witness at a concrete credential pair. -/
theorem C3_credential_types_witness :
    getCurrentUser [] ⟨none, none, some "voting_session", none⟩ =
      .error ⟨401, "Invalid token type"⟩ ∧
    getCurrentVoter ⟨[], [], [], [], [], 0⟩ 0
        ⟨none, none, some "admin_access", none⟩ =
      .error ⟨401, "Invalid token type"⟩ :=
  ⟨(C3_credential_types_not_interchangeable [] ⟨[], [], [], [], [], 0⟩ 0
      ⟨none, none, some "voting_session", none⟩).1 rfl,
   (C3_credential_types_not_interchangeable [] ⟨[], [], [], [], [], 0⟩ 0
      ⟨none, none, some "admin_access", none⟩).2 rfl⟩

/-- C5: a vote batch containing two entries for the same portfolio is
rejected wholesale by the request validator (the `VotingCreation`
duplicate-portfolio check) before the handler runs: the database state
is returned unchanged and no Vote row is written. -/
theorem C5_duplicate_portfolio_batch_rejected :
    ∀ (db : Db) (e : ElectorateRow) (sid : Option Nat) (now : Int)
      (votes : List VoteReq),
      ¬(votes.map (fun v => v.portfolio_id)).Nodup →
      castVoteEndpoint db e sid now votes =
        (db, .error ⟨422, "Cannot vote for the same portfolio multiple times"⟩) := by
  intro db e sid now votes h
  have hne : votes.isEmpty = false := by
    cases votes with
    | nil => exact absurd List.nodup_nil h
    | cons a t => rfl
  unfold castVoteEndpoint
  rw [hne]
  simp only [Bool.false_eq_true, if_false]
  rw [if_pos h]

/-- C5 witness: a concrete two-entry batch for the same portfolio. -/
theorem C5_duplicate_portfolio_batch_witness :
    castVoteEndpoint ⟨[], [], [], [], [], 0⟩ ⟨1, "S", false, none, false⟩
        none 0 [⟨4, 10⟩, ⟨4, 11⟩] =
      (⟨[], [], [], [], [], 0⟩,
        .error ⟨422, "Cannot vote for the same portfolio multiple times"⟩) :=
  C5_duplicate_portfolio_batch_rejected _ _ _ _ _ (by decide)

/-- C6: hashing factors through normalization, so any two token strings
with the same normalization — in particular strings differing only in
hyphens, spaces and letter case — hash to the identical digest; the
spec's concrete pair is included. -/
theorem C6_normalize_before_hash :
    (∀ t1 t2 : String, normalizeToken t1 = normalizeToken t2 →
      hashVotingToken t1 = hashVotingToken t2) ∧
    hashVotingToken "ab12-CD34" = hashVotingToken "AB12CD34" := by
  constructor
  · intro t1 t2 h
    unfold hashVotingToken
    rw [h]
  · exact congrArg sha256hex
      (by decide : normalizeToken "ab12-CD34" = normalizeToken "AB12CD34")

/-- C6 witness at another concrete pair differing in a space and case. -/
theorem C6_normalize_before_hash_witness :
    hashVotingToken "AB12 CD34" = hashVotingToken "ab12cd34" :=
  C6_normalize_before_hash.1 "AB12 CD34" "ab12cd34" (by decide)

/-- C9 counterexample: the service-level StudentIDConverter is not a
lossless bijection — a storage-form id containing a hyphen does not
round-trip — and it performs no case normalization (lowercase input
stays lowercase). -/
theorem C9_roundtrip_counterexample :
    toDisplay (toStorage "a-b") ≠ "a-b" ∧ toStorage "mls/01" = "mls-01" := by
  decide

/-- C9 amended: on ids using only the appropriate separator the two
conversions are mutually inverse (display→storage→display and
storage→display→storage), and neither direction changes letter case
(lowercase input yields lowercase output — there is no case
normalization). -/
theorem C9_separator_conversion :
    (∀ s : String, '-' ∉ s.data → toDisplay (toStorage s) = s) ∧
    (∀ s : String, '/' ∉ s.data → toStorage (toDisplay s) = s) ∧
    (∀ s : String, (∀ c ∈ s.data, c.isUpper = false) →
      ∀ c ∈ (toStorage s).data, c.isUpper = false) ∧
    (∀ s : String, (∀ c ∈ s.data, c.isUpper = false) →
      ∀ c ∈ (toDisplay s).data, c.isUpper = false) := by
  refine ⟨?_, ?_, ?_, ?_⟩
  · intro s h
    obtain ⟨l⟩ := s
    simp only [toStorage, toDisplay, pyReplaceChar, List.map_map]
    refine congrArg String.mk ?_
    have : ∀ c ∈ l, ((fun c => if c = '-' then '/' else c) ∘
        (fun c => if c = '/' then '-' else c)) c = id c := by
      intro c hc
      by_cases hcs : c = '/'
      · simp [hcs]
      · have hcd : c ≠ '-' := fun hh => h (hh ▸ hc)
        simp [hcs, hcd]
    rw [List.map_congr_left this, List.map_id]
  · intro s h
    obtain ⟨l⟩ := s
    simp only [toStorage, toDisplay, pyReplaceChar, List.map_map]
    refine congrArg String.mk ?_
    have : ∀ c ∈ l, ((fun c => if c = '/' then '-' else c) ∘
        (fun c => if c = '-' then '/' else c)) c = id c := by
      intro c hc
      by_cases hcs : c = '-'
      · simp [hcs]
      · have hcd : c ≠ '/' := fun hh => h (hh ▸ hc)
        simp [hcs, hcd]
    rw [List.map_congr_left this, List.map_id]
  · intro s h c hc
    simp only [toStorage, pyReplaceChar, List.mem_map] at hc
    obtain ⟨c0, hc0, heq⟩ := hc
    by_cases h0 : c0 = '/'
    · simp [h0] at heq
      rw [← heq]
      decide
    · simp [h0] at heq
      rw [← heq]
      exact h c0 hc0
  · intro s h c hc
    simp only [toDisplay, pyReplaceChar, List.mem_map] at hc
    obtain ⟨c0, hc0, heq⟩ := hc
    by_cases h0 : c0 = '-'
    · simp [h0] at heq
      rw [← heq]
      decide
    · simp [h0] at heq
      rw [← heq]
      exact h c0 hc0

lemma dropWhile_eq_self_of (p : Char → Bool) (l : List Char)
    (h : ∀ c ∈ l, p c = false) : l.dropWhile p = l := by
  cases l with
  | nil => rfl
  | cons a t =>
    rw [List.dropWhile_cons, h a (List.mem_cons_self a t)]
    simp

lemma pyStrip_eq_self (l : List Char) (h : ∀ c ∈ l, isPySpace c = false) :
    pyStrip ⟨l⟩ = ⟨l⟩ := by
  show String.mk (((l.dropWhile isPySpace).reverse.dropWhile isPySpace).reverse) = ⟨l⟩
  rw [dropWhile_eq_self_of _ _ h,
    dropWhile_eq_self_of _ _ (fun c hc => h c (List.mem_reverse.mp hc)),
    List.reverse_reverse]

lemma normalizeToken_eq_self (l : List Char)
    (h : ∀ c ∈ l, c ∈ safeChars.data) : normalizeToken ⟨l⟩ = ⟨l⟩ := by
  have h1 : ∀ c ∈ safeChars.data, (!(c = '-' : Bool)) = true := by decide
  have h2 : ∀ c ∈ safeChars.data, (!(c = ' ' : Bool)) = true := by decide
  have h3 : ∀ c ∈ safeChars.data, Char.toUpper c = c := by decide
  show String.mk (((l.filter fun c => !(c = '-')).filter fun c => !(c = ' ')).map
    Char.toUpper) = ⟨l⟩
  rw [List.filter_eq_self.mpr (fun c hc => h1 c (h c hc))]
  rw [List.filter_eq_self.mpr (fun c hc => h2 c (h c hc))]
  rw [List.map_congr_left (g := id) (fun c hc => h3 c (h c hc)), List.map_id]

/-- C2: the token-issuance/verification pipeline is internally broken:
every plaintext emitted by `_generate_token` (four draws from the
restricted alphabet) normalizes to length 4, and `verify_voting_id`
rejects any presented token whose normalized length is not 8 with a
400-format error, before hashing or lookup.  So no issued token ever
passes format validation, contradicting the claim. -/
theorem C2_issued_token_rejected_by_format_check :
    ∀ (db : Db) (now : Int) (draws : List Char), validDraws4 draws →
      verifyVotingId db now (generateToken4 draws) =
        .error ⟨400, "Invalid token format. Expected 8 characters, got 4"⟩ := by
  intro db now draws hv
  obtain ⟨hlen, hmem⟩ := hv
  have hsafe : ∀ c ∈ safeChars.data, isPySpace c = false := by decide
  have hstrip : pyStrip ⟨draws⟩ = ⟨draws⟩ :=
    pyStrip_eq_self draws (fun c hc => hsafe c (hmem c hc))
  have hnorm : normalizeToken ⟨draws⟩ = ⟨draws⟩ := normalizeToken_eq_self draws hmem
  have hne : (⟨draws⟩ : String) ≠ "" := by
    intro hcon
    have hnil : draws = [] := by simpa using congrArg String.data hcon
    rw [hnil] at hlen
    simp at hlen
  have hlen4 : (⟨draws⟩ : String).length = 4 := hlen
  have h48 : (⟨draws⟩ : String).length ≠ 8 := by
    rw [hlen4]; decide
  show verifyVotingId db now ⟨draws⟩ = _
  simp only [verifyVotingId, hstrip, hnorm]
  rw [if_neg hne, if_pos h48, hlen4]
  rfl

/-- C2 witness: a concrete generated 4-character token is rejected. -/
theorem C2_issued_token_rejected_witness :
    verifyVotingId ⟨[], [], [], [], [], 0⟩ 0 (generateToken4 ['A', 'B', '2', '3']) =
      .error ⟨400, "Invalid token format. Expected 8 characters, got 4"⟩ :=
  C2_issued_token_rejected_by_format_check ⟨[], [], [], [], [], 0⟩ 0
    ['A', 'B', '2', '3'] (by decide)

/-- C7: for a well-formed presented token, verification fails with 401
"Invalid token" when no stored digest matches; otherwise with 401
"Token expired" when past expiry (even if also revoked, expiry being
checked first); otherwise with 401 "Token revoked" when revoked;
otherwise with 404 "Voter not found" when the owning electorate is
missing or soft-deleted — in exactly this order. -/
theorem C7_verification_error_order :
    ∀ (db : Db) (now : Int) (input : String),
      pyStrip input ≠ "" →
      (normalizeToken (pyStrip input)).length = 8 →
      pyIsAlnum (normalizeToken (pyStrip input)) = true →
      (getVotingTokenByHash db.tokens
          (sha256hex (normalizeToken (pyStrip input))) = none →
        verifyVotingId db now input = .error ⟨401, "Invalid token"⟩) ∧
      (∀ vt, getVotingTokenByHash db.tokens
          (sha256hex (normalizeToken (pyStrip input))) = some vt →
        (now > vt.expires_at →
          verifyVotingId db now input = .error ⟨401, "Token expired"⟩) ∧
        (¬now > vt.expires_at → vt.revoked = true →
          verifyVotingId db now input = .error ⟨401, "Token revoked"⟩) ∧
        (¬now > vt.expires_at → vt.revoked = false →
          (db.electorates.find? (fun el => el.id == vt.electorate_id) = none ∨
           ∃ el, db.electorates.find? (fun el => el.id == vt.electorate_id) =
              some el ∧ el.is_deleted = true) →
          verifyVotingId db now input = .error ⟨404, "Voter not found"⟩)) := by
  intro db now input h1 h2 h3
  have hl8 : ¬((normalizeToken (pyStrip input)).length ≠ 8) := by
    rw [h2]; decide
  constructor
  · intro hlook
    simp only [verifyVotingId, hlook]
    rw [if_neg h1, if_neg hl8]
    simp [h3]
  · intro vt hlook
    refine ⟨?_, ?_, ?_⟩
    · intro hexp
      simp only [verifyVotingId, hlook]
      rw [if_neg h1, if_neg hl8]
      simp [h3, if_pos hexp]
    · intro hnexp hrev
      simp only [verifyVotingId, hlook]
      rw [if_neg h1, if_neg hl8]
      simp [h3, if_neg hnexp, hrev]
    · intro hnexp hrev hel
      simp only [verifyVotingId, hlook]
      rw [if_neg h1, if_neg hl8]
      rcases hel with hel | ⟨el, hel, hdel⟩
      · simp [h3, if_neg hnexp, hrev, hel]
      · simp [h3, if_neg hnexp, hrev, hel, hdel]

/-- C7 witness: a well-formed token with no matching stored digest is
rejected as 401 "Invalid token". -/
theorem C7_verification_error_order_witness :
    verifyVotingId ⟨[], [], [], [], [], 0⟩ 0 "AB12-CD34" =
      .error ⟨401, "Invalid token"⟩ :=
  (C7_verification_error_order ⟨[], [], [], [], [], 0⟩ 0 "AB12-CD34"
    (by decide) (by decide) (by decide)).1 rfl

/-- C10: the staff authorizer rejects on credential type exactly when
the payload carries a "type" claim outside admin_access and access; a
payload with no type claim, or with type "access", passes the type gate
and is authorized as staff when the username and role checks succeed. -/
theorem C10_staff_type_gate :
    ∀ (users : List UserConfig) (p : JwtPayload),
      ((p.type = none ∨ p.type = some "access" ∨ p.type = some "admin_access") →
        getCurrentUser users p ≠ .error ⟨401, "Invalid token type"⟩) ∧
      (∀ t, p.type = some t → t ≠ "admin_access" → t ≠ "access" →
        getCurrentUser users p = .error ⟨401, "Invalid token type"⟩) ∧
      (∀ (u r : String) (uc : UserConfig),
        (p.type = none ∨ p.type = some "access") →
        p.sub = some u → u ≠ "" → p.role = some r →
        roleAllowed (some r) = true →
        users.find? (fun x => x.username == u) = some uc → uc.role = r →
        getCurrentUser users p =
          .ok ⟨uc.username, uc.role, uc.permissions, uc.role == "admin"⟩) := by
  intro users p
  refine ⟨?_, ?_, ?_⟩
  · intro h
    have hType : staffTypeOk p.type = true := by
      rcases h with h | h | h <;> rw [h] <;> rfl
    unfold getCurrentUser
    rw [hType]
    simp only [Bool.not_true, Bool.false_eq_true, if_false]
    split
    · simp
    · split
      · simp
      · split
        · simp
        · split
          · simp
          · simp
  · intro t ht h1 h2
    have hType : staffTypeOk p.type = false := by
      rw [ht]
      simp [staffTypeOk, h1, h2]
    unfold getCurrentUser
    rw [hType]
    rfl
  · intro u r uc hty hsub hu hrole hra hfind hucr
    have hType : staffTypeOk p.type = true := by
      rcases hty with h | h <;> rw [h] <;> rfl
    have hT : pyTruthy (some u) = true := by
      simp only [pyTruthy, Bool.not_eq_true']
      cases hbe : u.isEmpty with
      | false => rfl
      | true => exact absurd ((String.isEmpty_iff _).mp hbe) hu
    simp only [getCurrentUser, hType, hT, hsub, hrole, hra, Option.getD_some,
      Bool.not_true, Bool.false_eq_true, if_false, hfind, hucr, ne_eq,
      not_true_eq_false]

/-- C10 witness: an access-token-less (no "type" claim) staff credential
is authorized. -/
theorem C10_staff_type_gate_witness :
    getCurrentUser [⟨"alice", "h", "admin", ["manage_users"]⟩]
        ⟨some "alice", some "admin", none, none⟩ =
      .ok ⟨"alice", "admin", ["manage_users"], true⟩ :=
  (C10_staff_type_gate [⟨"alice", "h", "admin", ["manage_users"]⟩]
    ⟨some "alice", some "admin", none, none⟩).2.2 "alice" "admin"
    ⟨"alice", "h", "admin", ["manage_users"]⟩ (Or.inl rfl) rfl (by decide)
    rfl rfl rfl rfl

/-- C9 witness: the canonical id shapes round-trip. -/
theorem C9_separator_conversion_witness :
    toDisplay (toStorage "MLS/0201/19") = "MLS/0201/19" ∧
    toStorage (toDisplay "MLS-0201-19") = "MLS-0201-19" :=
  ⟨C9_separator_conversion.1 "MLS/0201/19" (by decide),
   C9_separator_conversion.2.1 "MLS-0201-19" (by decide)⟩


lemma mem_chunkEligible (electorates : List ElectorateRow) (c : List Nat)
    (g : ElectorateRow) :
    g ∈ chunkEligible electorates c ↔
      g ∈ electorates ∧ g.id ∈ c ∧ g.is_deleted = false := by
  simp [chunkEligible, List.mem_filter, List.elem_iff, and_assoc]


lemma groupNFuel_flatten (n : Nat) :
    ∀ (fuel : Nat) (l : List α), l.length ≤ fuel →
      (groupNFuel (n + 1) fuel l).flatten = l := by
  intro fuel
  induction fuel with
  | zero =>
    intro l hl
    rw [List.eq_nil_of_length_eq_zero (Nat.le_zero.mp hl)]
    rfl
  | succ fuel ih =>
    intro l hl
    cases l with
    | nil => rfl
    | cons a rest =>
      show ((a :: rest).take (n + 1) ::
        groupNFuel (n + 1) fuel ((a :: rest).drop (n + 1))).flatten = a :: rest
      rw [List.flatten_cons, ih _ ?hlen, List.take_append_drop]
      case hlen =>
        rw [List.length_drop]
        simp only [List.length_cons] at hl
        simp only [List.length_cons]
        omega

lemma groupN_flatten_1000 (l : List Nat) : (groupN 1000 l).flatten = l := by
  have h : (1000 : Nat) = 999 + 1 := rfl
  unfold groupN
  rw [h]
  exact groupNFuel_flatten 999 l.length l (le_refl _)

lemma mem_of_mem_groupN (l : List Nat) (x : Nat) (hx : x ∈ l) :
    ∃ c ∈ groupN 1000 l, x ∈ c := by
  rw [← groupN_flatten_1000 l] at hx
  exact List.mem_flatten.mp hx

/- Helper lemmas about the issuance loops, used for claims C4 and C8. -/

lemma votingToken_constructor_raises :
    declarativeConstructorCheck "VotingToken" votingTokenAttrs
      votingTokenCallKwargs =
    .error "'device_fingerprint' is an invalid keyword argument for VotingToken" := by
  rfl

lemma processElectorate_voted (now : Int) (supply : Nat → String)
    (st : IssueState) (e : ElectorateRow) (hv : e.has_voted = true) :
    processElectorate now supply st e = .ok st := by
  simp [processElectorate, hv]

lemma processElectorate_eligible (now : Int) (supply : Nat → String)
    (st : IssueState) (e : ElectorateRow) (hv : e.has_voted = false) :
    processElectorate now supply st e =
    .error "'device_fingerprint' is an invalid keyword argument for VotingToken" := by
  simp only [processElectorate, hv, Bool.false_eq_true, if_false]
  rw [votingToken_constructor_raises]

lemma runElectorateLoop_err (now : Int) (supply : Nat → String) :
    ∀ (L : List ElectorateRow) (st : IssueState) (m : String),
      runElectorateLoop now supply st L = .error m →
      m = "'device_fingerprint' is an invalid keyword argument for VotingToken" := by
  intro L
  induction L with
  | nil => intro st m h; exact Except.noConfusion h
  | cons e L ih =>
    intro st m h
    simp only [runElectorateLoop] at h
    cases hv : e.has_voted with
    | true =>
      rw [processElectorate_voted now supply st e hv] at h
      exact ih st m h
    | false =>
      rw [processElectorate_eligible now supply st e hv] at h
      exact (Except.error.inj h).symm

lemma runElectorateLoop_ok (now : Int) (supply : Nat → String) :
    ∀ (L : List ElectorateRow) (st r : IssueState),
      runElectorateLoop now supply st L = .ok r → r = st := by
  intro L
  induction L with
  | nil => intro st r h; exact (Except.ok.inj h).symm
  | cons e L ih =>
    intro st r h
    simp only [runElectorateLoop] at h
    cases hv : e.has_voted with
    | true =>
      rw [processElectorate_voted now supply st e hv] at h
      exact ih st r h
    | false =>
      rw [processElectorate_eligible now supply st e hv] at h
      exact Except.noConfusion h

lemma runElectorateLoop_eligible (now : Int) (supply : Nat → String) :
    ∀ (L : List ElectorateRow) (st : IssueState),
      (∃ g ∈ L, g.has_voted = false) →
      runElectorateLoop now supply st L =
      .error "'device_fingerprint' is an invalid keyword argument for VotingToken" := by
  intro L
  induction L with
  | nil =>
    rintro st ⟨g, hg, _⟩
    exact absurd hg (List.not_mem_nil g)
  | cons e L ih =>
    rintro st ⟨g, hg, hgv⟩
    simp only [runElectorateLoop]
    cases hv : e.has_voted with
    | false => rw [processElectorate_eligible now supply st e hv]
    | true =>
      rw [processElectorate_voted now supply st e hv]
      have hgL : g ∈ L := by
        rcases List.mem_cons.mp hg with h | h
        · exfalso
          rw [h, hv] at hgv
          exact Bool.noConfusion hgv
        · exact h
      exact ih st ⟨g, hgL, hgv⟩

lemma runChunkLoop_err (electorates : List ElectorateRow) (now : Int)
    (supply : Nat → String) :
    ∀ (CS : List (List Nat)) (st : IssueState) (m : String),
      runChunkLoop electorates now supply st CS = .error m →
      m = "'device_fingerprint' is an invalid keyword argument for VotingToken" := by
  intro CS
  induction CS with
  | nil => intro st m h; exact Except.noConfusion h
  | cons c CS ih =>
    intro st m h
    simp only [runChunkLoop] at h
    cases hpc : processChunk electorates now supply st c with
    | error m2 =>
      rw [hpc] at h
      have h2 : m2 = m := Except.error.inj h
      have h3 := runElectorateLoop_err now supply (chunkEligible electorates c)
        st m2 hpc
      exact h2 ▸ h3
    | ok st2 =>
      rw [hpc] at h
      exact ih st2 m h

lemma runChunkLoop_ok (electorates : List ElectorateRow) (now : Int)
    (supply : Nat → String) :
    ∀ (CS : List (List Nat)) (st r : IssueState),
      runChunkLoop electorates now supply st CS = .ok r → r = st := by
  intro CS
  induction CS with
  | nil => intro st r h; exact (Except.ok.inj h).symm
  | cons c CS ih =>
    intro st r h
    simp only [runChunkLoop] at h
    cases hpc : processChunk electorates now supply st c with
    | error m =>
      rw [hpc] at h
      exact Except.noConfusion h
    | ok st2 =>
      rw [hpc] at h
      have h2 : st2 = st := runElectorateLoop_ok now supply
        (chunkEligible electorates c) st st2 hpc
      exact (ih st2 r h).trans h2

lemma runChunkLoop_eligible (electorates : List ElectorateRow) (now : Int)
    (supply : Nat → String) :
    ∀ (CS : List (List Nat)) (st : IssueState),
      (∃ c ∈ CS, ∃ g ∈ chunkEligible electorates c, g.has_voted = false) →
      runChunkLoop electorates now supply st CS =
      .error "'device_fingerprint' is an invalid keyword argument for VotingToken" := by
  intro CS
  induction CS with
  | nil =>
    rintro st ⟨c, hc, _⟩
    exact absurd hc (List.not_mem_nil c)
  | cons c CS ih =>
    rintro st ⟨c0, hc0, g, hg, hgv⟩
    simp only [runChunkLoop]
    cases hpc : processChunk electorates now supply st c with
    | error m =>
      rw [runElectorateLoop_err now supply (chunkEligible electorates c)
        st m hpc]
    | ok st2 =>
      rcases List.mem_cons.mp hc0 with h | h
      · exfalso
        rw [h] at hg
        have helig := runElectorateLoop_eligible now supply
          (chunkEligible electorates c) st ⟨g, hg, hgv⟩
        have hpc2 : runElectorateLoop now supply st
            (chunkEligible electorates c) = .ok st2 := hpc
        rw [helig] at hpc2
        exact Except.noConfusion hpc2
      · exact ih st2 ⟨c0, h, g, hg, hgv⟩

/-- Any issuance call reports no plaintext at all: on success the loops
were all skips (state unchanged from the initial empty report), and on a
raised TypeError nothing reaches the caller. -/
lemma gen_issuedOf_nil (electorates : List ElectorateRow)
    (tokens0 : List TokenRow) (nextId0 : Nat) (ids : List Nat) (now : Int)
    (supply : Nat → String) :
    issuedOf (generateTokensForElectorates electorates tokens0 nextId0 ids now
      supply) = [] := by
  unfold generateTokensForElectorates
  cases hr : runChunkLoop electorates now supply ⟨tokens0, nextId0, []⟩
      (groupN 1000 ids) with
  | error m => rfl
  | ok r =>
    have h2 : r = ⟨tokens0, nextId0, []⟩ := runChunkLoop_ok electorates now
      supply (groupN 1000 ids) ⟨tokens0, nextId0, []⟩ r hr
    rw [h2]
    rfl

/-- C4: the claim's post-state is unreachable.  For any call whose id
list contains an eligible (non-deleted, not-yet-voted) electorate, the
`VotingToken` constructor raises
TypeError("'device_fingerprint' is an invalid keyword argument for
VotingToken") — the model declares no such attribute — so `db.commit()`
is never reached and the stored token rows are exactly the pre-call
rows: no token is issued and nothing is durably revoked. -/
theorem C4_issue_for_electorates_crashes :
    ∀ (electorates : List ElectorateRow) (tokens0 : List TokenRow)
      (nextId0 : Nat) (ids : List Nat) (now : Int) (supply : Nat → String)
      (e : ElectorateRow),
      e ∈ electorates → e.is_deleted = false → e.has_voted = false →
      e.id ∈ ids →
      generateTokensForElectorates electorates tokens0 nextId0 ids now supply =
        .error "'device_fingerprint' is an invalid keyword argument for VotingToken" ∧
      persistedTokensAfterIssue tokens0
        (generateTokensForElectorates electorates tokens0 nextId0 ids now
          supply) = tokens0 := by
  intro electorates tokens0 nextId0 ids now supply e he hdel hv hin
  obtain ⟨c, hc, hcid⟩ := mem_of_mem_groupN ids e.id hin
  have herr : generateTokensForElectorates electorates tokens0 nextId0 ids now
      supply =
      .error "'device_fingerprint' is an invalid keyword argument for VotingToken" := by
    unfold generateTokensForElectorates
    exact runChunkLoop_eligible electorates now supply (groupN 1000 ids)
      ⟨tokens0, nextId0, []⟩
      ⟨c, hc, e, (mem_chunkEligible electorates c e).mpr ⟨he, hcid, hdel⟩, hv⟩
  refine ⟨herr, ?_⟩
  rw [herr]
  rfl

/-- C4 witness: a single eligible electorate with one pre-existing
active token — the call raises and the stored rows are unchanged. -/
theorem C4_issue_for_electorates_crashes_witness :
    generateTokensForElectorates [⟨1, "MLS-0201-19", false, none, false⟩]
        [⟨50, 1, "h", true, 0, 100, false⟩] 60 [1] 0 (fun _ => "AB23") =
      .error "'device_fingerprint' is an invalid keyword argument for VotingToken" ∧
    persistedTokensAfterIssue [⟨50, 1, "h", true, 0, 100, false⟩]
        (generateTokensForElectorates [⟨1, "MLS-0201-19", false, none, false⟩]
          [⟨50, 1, "h", true, 0, 100, false⟩] 60 [1] 0 (fun _ => "AB23")) =
      [⟨50, 1, "h", true, 0, 100, false⟩] :=
  C4_issue_for_electorates_crashes [⟨1, "MLS-0201-19", false, none, false⟩]
    [⟨50, 1, "h", true, 0, 100, false⟩] 60 [1] 0 (fun _ => "AB23")
    ⟨1, "MLS-0201-19", false, none, false⟩ (by decide) rfl rfl (by decide)

/-- C8 counterexample: an electorate flagged `has_voted` whose only
valid vote is for portfolio 9 receives no token from
`generate_tokens_for_portfolio` for portfolio 5 — the delegate's
`has_voted` check skips it before the constructor is reached — contrary
to the claim's "including electorates who have already voted for other
portfolios". -/
theorem C8_partial_voter_not_reissued :
    issuedContains (issuedOf (generateTokensForPortfolio
      [⟨1, "MLS-0201-19", true, some 5, false⟩] []
      [⟨7, 1, 9, 3, none, true⟩] 60 5 0 (fun _ => "AB23"))) 1 = False :=
  eq_false (by decide)

/-- C8: the portfolio issuance path never reports a single plaintext,
for any input: a target set with an eligible electorate makes the
`VotingToken` constructor raise TypeError and the call abort with
nothing committed, and a target set of skipped electorates succeeds
having issued nothing — so no electorate whatsoever receives a token,
refuting the claimed target set. -/
theorem C8_issue_for_portfolio_never_issues :
    ∀ (electorates : List ElectorateRow) (tokens0 : List TokenRow)
      (votes : List VoteRow) (nextId0 pid : Nat) (now : Int)
      (supply : Nat → String),
      issuedOf (generateTokensForPortfolio electorates tokens0 votes nextId0
        pid now supply) = [] := by
  intro electorates tokens0 votes nextId0 pid now supply
  exact gen_issuedOf_nil electorates tokens0 nextId0 _ now supply

end ElectionSys
